import Mathlib

/-!
Shallow embedding of `src/DiceUtils.py` (class `Dice` and the stateless
helper class `DiceUtils`).

Modelling conventions
- Python exceptions are modelled by `Except Err`; the `Err` constructors
  name the Python exception classes that the code can raise.
- Python `int` is `Int`; Python `float` is `Rat` (every float produced by
  this program is an integer or a half-integer, which binary floats
  represent exactly, so `Rat` is a faithful model of the values).
- The process-wide pseudorandom generator (`random.randint(1, faces)`) is
  modelled by an oracle stream `g : Nat → Int` together with a cursor
  `i : Nat`: the k-th draw the program makes is `g (i + k)`, and each
  draw advances the cursor by one.  Code paths that never consult the
  generator (the `faces == 1` short-circuits) do not advance the cursor,
  exactly as in the source.
- A `Dice` object is the record of its attribute dictionary: the fields
  `_count` and `_faces`, the flag `_is_stats_stale`, and the cached
  statistics attributes (`_stats_min`, ..., `_stats_mode`), which are
  absent until `_update_stats` has run — modelled by `Option Stats`,
  where `none` means the attributes are absent and reading one raises
  `AttributeError`.
-/

/-- Python exception classes raised by `DiceUtils.py`. -/
inductive Err where
  | typeError
  | valueError
  | attributeError
  | zeroDivisionError
  deriving DecidableEq, Repr

/-- An argument passed to the `count` / `faces` setters: either a Python
`int`, or a value of any other type (which `isinstance(x, int)` rejects). -/
inductive PyNum where
  | int (n : Int)
  | nonInt
  deriving DecidableEq, Repr

/-- The cached statistics attributes `_stats_min .. _stats_mode` that
`Dice._update_stats` assigns. -/
structure Stats where
  smin : Int
  smax : Int
  srange : Int
  smid : Int
  smean : Rat
  smedian : Rat
  smode : Int
  deriving DecidableEq, Repr

/-- The attribute state of a `Dice` instance: `_count`, `_faces`,
`_is_stats_stale`, and the cached statistics (absent = `none`). -/
structure Dice where
  count : Int
  faces : Int
  isStatsStale : Bool
  statsCache : Option Stats
  deriving DecidableEq, Repr

/-- The `count` setter (`Dice.count`, lines 29-45): `TypeError` for a
non-int, `ValueError` below 1, otherwise store the value and mark the
statistics stale.  An error leaves the caller's state untouched (no
assignment happens before the checks). -/
def set_count (d : Dice) (v : PyNum) : Except Err Dice :=
  match v with
  | .nonInt => .error .typeError
  | .int n =>
    if n < 1 then .error .valueError
    else .ok { d with count := n, isStatsStale := true }

/-- The `faces` setter (`Dice.faces`, lines 56-72). -/
def set_faces (d : Dice) (v : PyNum) : Except Err Dice :=
  match v with
  | .nonInt => .error .typeError
  | .int n =>
    if n < 1 then .error .valueError
    else .ok { d with faces := n, isStatsStale := true }

/-- `Dice.__init__` (lines 9-18): run the `count` setter, then the
`faces` setter, then assign `self._is_stats_stale = False`.  The cached
statistics attributes are absent on the fresh object. -/
def mk_dice (faces count : PyNum) : Except Err Dice :=
  match set_count { count := 0, faces := 0, isStatsStale := false, statsCache := none } count with
  | .error e => .error e
  | .ok d1 =>
    match set_faces d1 faces with
    | .error e => .error e
    | .ok d2 => .ok { d2 with isStatsStale := false }

/-- The face values `range(1, faces + 1)`. -/
def faceList (faces : Int) : List Int :=
  (List.range faces.toNat).map (fun k => (k : Int) + 1)

/-- `Counter.__setitem__`-style increment: `counter[k] += v`, appending
the key at the end when it is new (Python dicts preserve insertion
order). -/
def counterAdd (l : List (Int × Nat)) (k : Int) (v : Nat) : List (Int × Nat) :=
  match l with
  | [] => [(k, v)]
  | (k', v') :: t => if k' = k then (k', v' + v) :: t else (k', v') :: counterAdd t k v

/-- One convolution round of `_update_stats` (lines 87-91): for each
`(total, freq)` of the current counter, in iteration order, and each face
`1..faces`, add `freq` to `new_counts[total + face]`. -/
def convolveOnce (faces : Int) (counts : List (Int × Nat)) : List (Int × Nat) :=
  counts.foldl
    (fun acc tf => (faceList faces).foldl (fun a face => counterAdd a (tf.1 + face) tf.2) acc)
    []

/-- The outcome-frequency counter built by `_update_stats` (lines 85-91):
start from `Counter(range(1, faces + 1))` and convolve `count - 1`
times. -/
def distribution (faces count : Int) : List (Int × Nat) :=
  (convolveOnce faces)^[count.toNat - 1] ((faceList faces).map (fun f => (f, 1)))

/-- `counts.most_common(1)[0][0]` (line 93): the first key, in counter
iteration order, whose frequency is maximal (`heapq.nlargest` keeps the
earlier element on ties). -/
def mostCommon1 (l : List (Int × Nat)) : Int :=
  match l with
  | [] => 0
  | p :: t => (t.foldl (fun best q => if q.2 > best.2 then q else best) p).1

/-- Insert a pair into a list sorted by key (helper for `sorted`). -/
def insertSorted (p : Int × Nat) : List (Int × Nat) → List (Int × Nat)
  | [] => [p]
  | q :: t => if p.1 ≤ q.1 then p :: q :: t else q :: insertSorted p t

/-- `sorted(counts.items())` (line 95); the counter's keys are distinct,
so any comparison sort produces the same list. -/
def sortByKey (l : List (Int × Nat)) : List (Int × Nat) :=
  l.foldr insertSorted []

/-- `list(accumulate(freqs))` (line 97): running prefix sums. -/
def cumList : List Nat → List Nat
  | [] => []
  | f :: t => f :: (cumList t).map (· + f)

/-- `bisect.bisect_right(cum, n)` (line 101): on the sorted list `cum`,
the index of the first element strictly greater than `n`, i.e. the number
of elements `≤ n`. -/
def bisectRight (cum : List Nat) (n : Nat) : Nat :=
  cum.countP (fun c => c ≤ n)

/-- `Dice._update_stats` (lines 78-109), producing the values assigned to
the cached statistics attributes.  `//` on the positive ints here is
Python floor division, `Int.fdiv`; `/` producing a float is exact `Rat`
division. -/
def update_stats (faces count : Int) : Stats :=
  let smin := count
  let smax := faces * count
  let counts := distribution faces count
  let rolls := sortByKey counts
  let freqs := rolls.map (·.2)
  let cum := cumList freqs
  let total := freqs.sum
  let nth : Nat → Int := fun n => (rolls.getD (bisectRight cum n) (0, 0)).1
  { smin := smin
    smax := smax
    srange := smax - smin
    smid := Int.fdiv (smin + smax) 2
    smean := ((smin : Rat) + (smax : Rat)) / 2
    smedian :=
      if total % 2 = 1 then (nth (total / 2) : Rat)
      else ((nth (total / 2 - 1) : Rat) + (nth (total / 2) : Rat)) / 2
    smode := mostCommon1 counts }

/-- `Dice._check_stats` (lines 74-76): recompute and cache the statistics
when the stale flag is set, otherwise leave the object unchanged. -/
def check_stats (d : Dice) : Dice :=
  if d.isStatsStale then
    { d with statsCache := some (update_stats d.faces d.count), isStatsStale := false }
  else d

/-- Reading the `stats_min` property (lines 111-119): run `_check_stats`,
then read `self._stats_min` — `AttributeError` when the attribute was
never assigned.  (The property also leaves the object in the
`check_stats` state; the claims below only concern the returned value.) -/
def stats_min (d : Dice) : Except Err Int :=
  match (check_stats d).statsCache with
  | some s => .ok s.smin
  | none => .error .attributeError

/-- Reading the `stats_max` property (lines 121-129). -/
def stats_max (d : Dice) : Except Err Int :=
  match (check_stats d).statsCache with
  | some s => .ok s.smax
  | none => .error .attributeError

/-- Reading the `stats_range` property (lines 131-139). -/
def stats_range (d : Dice) : Except Err Int :=
  match (check_stats d).statsCache with
  | some s => .ok s.srange
  | none => .error .attributeError

/-- Reading the `stats_midpoint` property (lines 141-149). -/
def stats_midpoint (d : Dice) : Except Err Int :=
  match (check_stats d).statsCache with
  | some s => .ok s.smid
  | none => .error .attributeError

/-- Reading the `stats_mean` property (lines 151-159). -/
def stats_mean (d : Dice) : Except Err Rat :=
  match (check_stats d).statsCache with
  | some s => .ok s.smean
  | none => .error .attributeError

/-- Reading the `stats_median` property (lines 161-169). -/
def stats_median (d : Dice) : Except Err Rat :=
  match (check_stats d).statsCache with
  | some s => .ok s.smedian
  | none => .error .attributeError

/-- Reading the `stats_mode` property (lines 171-179). -/
def stats_mode (d : Dice) : Except Err Int :=
  match (check_stats d).statsCache with
  | some s => .ok s.smode
  | none => .error .attributeError

/-- `Dice.roll_one` (lines 181-187): `random.randint(1, self.faces)` when
`faces > 1`, else 1 without consulting the generator.  Returns the drawn
value and the advanced cursor. -/
def roll_one (d : Dice) (g : Nat → Int) (i : Nat) : Int × Nat :=
  if d.faces > 1 then (g i, i + 1) else (1, i)

/-- `Dice.roll_iter` (lines 189-198): `count` outcomes of `roll_one` when
`faces > 1`, else `count` literal 1s produced without calling
`roll_one`. -/
def roll_iter (d : Dice) (g : Nat → Int) (i : Nat) : List Int × Nat :=
  if d.faces > 1 then
    ((List.range d.count.toNat).map (fun k => g (i + k)), i + d.count.toNat)
  else
    (List.replicate d.count.toNat 1, i)

/-- `Dice.roll_all` (lines 200-206): `sum(self.roll_iter())` when
`faces > 1`, else `self.count` directly. -/
def roll_all (d : Dice) (g : Nat → Int) (i : Nat) : Int × Nat :=
  if d.faces > 1 then ((roll_iter d g i).1.sum, (roll_iter d g i).2)
  else (d.count, i)

/-- `Dice.roll` (lines 208-216): `roll_one` when `count == 1`, else
`roll_all`.  (`Dice.__call__` just forwards to it.) -/
def roll (d : Dice) (g : Nat → Int) (i : Nat) : Int × Nat :=
  if d.count = 1 then roll_one d g i else roll_all d g i

/-- The second operand of a `Dice` operator: a number, another `Dice`, or
a value of any other type (which `Dice._resolve` maps to
`NotImplemented`).  Numeric operands are modelled as `Int`; the claims
below only exercise the non-numeric, non-`Dice` case. -/
inductive Operand where
  | num (v : Int)
  | dice (d : Dice)
  | other
  deriving Repr

/-- `Dice._resolve` (lines 226-232): a number is returned as-is, a `Dice`
is rolled, anything else gives `NotImplemented` (modelled `none`). -/
def resolve (o : Operand) (g : Nat → Int) (i : Nat) : Option Int × Nat :=
  match o with
  | .num v => (some v, i)
  | .dice d => (some (roll d g i).1, (roll d g i).2)
  | .other => (none, i)

/-- `Dice.__add__` (lines 234-235): `self.roll() + self._resolve(other)`.
When `_resolve` gives `NotImplemented`, the Python expression
`int + NotImplemented` raises `TypeError` (no operand supports the
addition), so the method propagates `TypeError` rather than returning
`NotImplemented` itself. -/
def dice_add (d : Dice) (o : Operand) (g : Nat → Int) (i : Nat) : Except Err Int :=
  match (resolve o g (roll d g i).2).1 with
  | some v => .ok ((roll d g i).1 + v)
  | none => .error .typeError

/-- `Dice.__sub__` (lines 240-241); same `TypeError` behaviour on a
`NotImplemented` right operand. -/
def dice_sub (d : Dice) (o : Operand) (g : Nat → Int) (i : Nat) : Except Err Int :=
  match (resolve o g (roll d g i).2).1 with
  | some v => .ok ((roll d g i).1 - v)
  | none => .error .typeError

/-- `Dice.__mul__` (lines 246-247). -/
def dice_mul (d : Dice) (o : Operand) (g : Nat → Int) (i : Nat) : Except Err Int :=
  match (resolve o g (roll d g i).2).1 with
  | some v => .ok ((roll d g i).1 * v)
  | none => .error .typeError

/-- `Dice.__truediv__` (lines 252-253): float division, exact on these
values; division by zero raises `ZeroDivisionError`. -/
def dice_truediv (d : Dice) (o : Operand) (g : Nat → Int) (i : Nat) : Except Err Rat :=
  match (resolve o g (roll d g i).2).1 with
  | some v =>
    if v = 0 then .error .zeroDivisionError else .ok (((roll d g i).1 : Rat) / (v : Rat))
  | none => .error .typeError

/-- `Dice.__floordiv__` (lines 258-259): Python floor division
(`Int.fdiv`); division by zero raises `ZeroDivisionError`. -/
def dice_floordiv (d : Dice) (o : Operand) (g : Nat → Int) (i : Nat) : Except Err Int :=
  match (resolve o g (roll d g i).2).1 with
  | some v => if v = 0 then .error .zeroDivisionError else .ok (Int.fdiv (roll d g i).1 v)
  | none => .error .typeError

/-- `Dice.__eq__` (lines 264-265): `self.roll() == self._resolve(other)`.
When `_resolve` gives `NotImplemented`, the Python expression
`int == NotImplemented` does NOT raise: equality falls back to identity
and evaluates to `False`, so the method returns an ordinary `False`. -/
def dice_eq (d : Dice) (o : Operand) (g : Nat → Int) (i : Nat) : Except Err Bool :=
  match (resolve o g (roll d g i).2).1 with
  | some v => .ok ((roll d g i).1 == v)
  | none => .ok false

/-- `Dice.__lt__` (lines 300-301): `int < NotImplemented` raises
`TypeError`. -/
def dice_lt (d : Dice) (o : Operand) (g : Nat → Int) (i : Nat) : Except Err Bool :=
  match (resolve o g (roll d g i).2).1 with
  | some v => .ok (decide ((roll d g i).1 < v))
  | none => .error .typeError

/-- `Dice.__le__` (lines 303-304). -/
def dice_le (d : Dice) (o : Operand) (g : Nat → Int) (i : Nat) : Except Err Bool :=
  match (resolve o g (roll d g i).2).1 with
  | some v => .ok (decide ((roll d g i).1 ≤ v))
  | none => .error .typeError

/-- `Dice.__gt__` (lines 306-307). -/
def dice_gt (d : Dice) (o : Operand) (g : Nat → Int) (i : Nat) : Except Err Bool :=
  match (resolve o g (roll d g i).2).1 with
  | some v => .ok (decide ((roll d g i).1 > v))
  | none => .error .typeError

/-- `Dice.__ge__` (lines 309-310). -/
def dice_ge (d : Dice) (o : Operand) (g : Nat → Int) (i : Nat) : Except Err Bool :=
  match (resolve o g (roll d g i).2).1 with
  | some v => .ok (decide ((roll d g i).1 ≥ v))
  | none => .error .typeError

/-- `Dice.matches` (lines 267-278): `TypeError` unless the operand is a
`Dice`, else compare the `count` and `faces` fields. -/
def dice_matches (d : Dice) (o : Operand) : Except Err Bool :=
  match o with
  | .dice e => .ok (d.count == e.count && d.faces == e.faces)
  | _ => .error .typeError

/-- The attribute lookup `die.sides` performed by `roll_exploding_iter`
(line 429) and `roll_exploding_list` (line 466).  Class `Dice` defines no
attribute named `sides` (its field is `faces`), so the lookup always
raises `AttributeError`; the absent attribute is modelled as `none`. -/
def Dice.sidesAttr (_ : Dice) : Option Int := none

/-- Suspension states of the generator returned by
`DiceUtils.roll_exploding_iter` (lines 408-444).  In Python, calling a
generator function only captures the arguments; the body runs when the
iterator is first advanced.  `start` is the state before the body has
run; `oneUnbounded` / `oneBounded` are the `die.sides == 1` yield loops;
`loop` is the main explosion loop: `afterYield = some r` records that the
roll `r` was just yielded and the post-yield bookkeeping
(`explosions += 1`; stop if `r < die.faces`) is still pending. -/
inductive EGS where
  | start (die : Dice) (maxExplosions : Int)
  | oneUnbounded (die : Dice)
  | oneBounded (die : Dice) (remaining : Nat)
  | loop (die : Dice) (maxExplosions : Int) (explosions : Int) (afterYield : Option Int)
  deriving Repr

/-- The outcome of advancing the generator once: a yielded value with the
next suspension state and generator cursor, normal exhaustion
(`StopIteration`), or a raised exception. -/
inductive StepResult where
  | yielded (v : Int) (next : EGS) (i : Nat)
  | stopped
  | raised (e : Err)
  deriving Repr

/-- `DiceUtils.roll_exploding_iter(die, max_explosions)` itself: invoking
a generator function raises nothing and returns the un-started
generator. -/
def roll_exploding_iter (die : Dice) (maxExplosions : Int) : EGS :=
  .start die maxExplosions

/-- Advance the `roll_exploding_iter` generator once (body lines
426-444).  On the first advance the body runs: the `die.count != 1`
check raises `ValueError`; then `die.sides` is read — class `Dice` has no
such attribute, so every further execution raises `AttributeError`; the
remaining branches translate the text of the body but are unreachable. -/
def egsStep (s : EGS) (g : Nat → Int) (i : Nat) : StepResult :=
  match s with
  | .start die maxE =>
    if die.count ≠ 1 then .raised .valueError
    else
      match die.sidesAttr with
      | none => .raised .attributeError
      | some sides =>
        if sides = 1 then
          if maxE < 0 then .yielded 1 (.oneUnbounded die) i
          else if maxE = 0 then .stopped
          else .yielded 1 (.oneBounded die (maxE.toNat - 1)) i
        else
          if maxE < 0 ∨ 0 < maxE then
            let (r, i') := roll die g i
            .yielded r (.loop die maxE 0 (some r)) i'
          else .stopped
  | .oneUnbounded die => .yielded 1 (.oneUnbounded die) i
  | .oneBounded die remaining =>
    if remaining = 0 then .stopped
    else .yielded 1 (.oneBounded die (remaining - 1)) i
  | .loop die maxE explosions afterYield =>
    match afterYield with
    | some r =>
      if r < die.faces then .stopped
      else
        if maxE < 0 ∨ explosions + 1 < maxE then
          let (r', i') := roll die g i
          .yielded r' (.loop die maxE (explosions + 1) (some r')) i'
        else .stopped
    | none =>
      if maxE < 0 ∨ explosions < maxE then
        let (r, i') := roll die g i
        .yielded r (.loop die maxE explosions (some r)) i'
      else .stopped

/-- The `while` loop of `roll_exploding_list` (lines 472-477), with a
fuel bound because the Python loop terminates only probabilistically
(`none` = fuel exhausted; every reachable call site of the surrounding
function raises before this loop, so no theorem depends on the bound). -/
def explListLoop (die : Dice) (maxE : Int) (g : Nat → Int) :
    Nat → Nat → List Int → Option (List Int)
  | _, 0, _ => none
  | i, fuel + 1, acc =>
    if maxE < 0 ∨ (acc.length : Int) < maxE then
      let (r, i') := roll_one die g i
      let acc' := acc ++ [r]
      if r < die.faces then some acc' else explListLoop die maxE g i' fuel acc'
    else some acc

/-- `DiceUtils.roll_exploding_list(die, max_explosions)` (lines 448-477),
a plain function: the `die.count != 1` check raises `ValueError` at the
call itself; then the `die.sides` read raises `AttributeError` on every
remaining path.  The inner `Option` is the documented `list[int] | None`
result (`none` = Python `None`); the outer `Option` is the loop fuel. -/
def roll_exploding_list (die : Dice) (maxE : Int) (g : Nat → Int) (i fuel : Nat) :
    Except Err (Option (Option (List Int))) :=
  if die.count ≠ 1 then .error .valueError
  else
    match die.sidesAttr with
    | none => .error .attributeError
    | some sides =>
      if sides = 1 then
        if maxE < 0 then .ok (some none)
        else .ok (some (some (List.replicate maxE.toNat 1)))
      else .ok ((explListLoop die maxE g i fuel []).map some)

/-- `DiceUtils.roll_percentile` (lines 479-483): the sum of the two
draws `random.randrange(0, 10)` (units, drawn first) and
`random.randrange(0, 100, 10)` (tens), with an exact sum of 0 remapped
to 100.  The two draws are passed in as the values the generator
produced. -/
def roll_percentile (units tens : Int) : Int :=
  let result := units + tens
  if result = 0 then 100 else result

/-! Helper lemmas for the degenerate one-faced die: the frequency counter
of `count` one-faced dice is the single entry `(count, 1)`. -/

/-- One convolution round over a one-faced die shifts the single partial
sum up by its only face value, 1. -/
theorem convolveOnce_one (t : Int) (f : Nat) :
    convolveOnce 1 [(t, f)] = [(t + 1, f)] := rfl

/-- Iterating the one-faced convolution `n` times shifts the single
partial sum up by `n`. -/
theorem iterate_convolveOnce_one (n : Nat) (t : Int) (f : Nat) :
    (convolveOnce 1)^[n] [(t, f)] = [(t + n, f)] := by
  induction n generalizing t with
  | zero => simp
  | succ k ih =>
    rw [Function.iterate_succ_apply, convolveOnce_one, ih]
    simp only [List.cons.injEq, Prod.mk.injEq, and_true]
    push_cast
    ring

/-- For a one-faced die the whole distribution is the single total
`count`, reached in exactly one way. -/
theorem distribution_one (c : Int) (hc : 1 ≤ c) :
    distribution 1 c = [(c, 1)] := by
  unfold distribution
  have hfl : (faceList 1).map (fun f => (f, 1)) = [((1 : Int), (1 : Nat))] := rfl
  rw [hfl, iterate_convolveOnce_one]
  simp only [List.cons.injEq, Prod.mk.injEq, and_true]
  omega

/-- For a one-faced die every computed statistic collapses to `count`,
except the range, which is 0. -/
theorem update_stats_one (c : Int) (hc : 1 ≤ c) :
    update_stats 1 c =
      { smin := c, smax := c, srange := 0, smid := c,
        smean := (c : Rat), smedian := (c : Rat), smode := c } := by
  simp only [update_stats]
  rw [distribution_one c hc]
  simp [sortByKey, insertSorted, cumList, bisectRight, mostCommon1, Stats.mk.injEq]
  rw [Int.fdiv_eq_ediv _ (by norm_num)]
  omega

/-- C1: the claim says that for every Dice with valid fields, reading the
statistics properties yields stats_min == count, stats_max == faces*count
and stats_range == stats_max - stats_min.  The computed statistics do
satisfy those formulas (second conjunct, for all faces and count), but on
a freshly constructed Dice the read itself raises AttributeError instead
of returning a value, because the constructor resets the stale flag after
the setters set it, so the lazy computation never runs (first conjunct,
evaluated at Dice(faces=6, count=2)).  The code contradicts its own
property docstrings here: the claim is the evident intent and the
constructor line is the slip. -/
theorem C1_stats_read_on_fresh_dice :
    (do
      let d ← mk_dice (.int 6) (.int 2)
      stats_min d) = Except.error Err.attributeError ∧
    ∀ faces count : Int,
      (update_stats faces count).smin = count ∧
      (update_stats faces count).smax = faces * count ∧
      (update_stats faces count).srange = faces * count - count :=
  ⟨rfl, fun _ _ => ⟨rfl, rfl, rfl⟩⟩

/-- C2: the claim says reading stats_median of Dice(faces=6, count=2)
returns exactly 7.0 via the cumulative-frequency rank lookup.  The rank
lookup over the convolved distribution does yield 7 for 2d6 (second
conjunct), but the read on a freshly constructed 2d6 raises
AttributeError because the constructor resets the stale flag, so the
scenario as stated fails on the code (first conjunct). -/
theorem C2_median_read_on_fresh_2d6 :
    (do
      let d ← mk_dice (.int 6) (.int 2)
      stats_median d) = Except.error Err.attributeError ∧
    (update_stats 6 2).smedian = 7 :=
  ⟨rfl, by with_unfolding_all rfl⟩

/-- C3 counterexample: the claim says every stats_* property equals count
when faces == 1.  Build Dice(faces=1, count=2), touch the count setter so
the statistics actually get computed, and read stats_range: the code
returns 0, not count = 2. -/
theorem C3_stats_range_zero_not_count :
    (do
      let d ← mk_dice (.int 1) (.int 2)
      let d2 ← set_count d (.int 2)
      stats_range d2) = Except.ok 0 ∧ (0 : Int) ≠ 2 :=
  ⟨rfl, by decide⟩

/-- C3 amended: for faces == 1, every roll (roll, roll_all, and each
roll_one draw, hence their count-fold sum) returns exactly count
regardless of the randomness oracle, and on a Dice whose statistics are
(re)computed (stale flag set), stats_min, stats_max, stats_midpoint,
stats_mean, stats_median and stats_mode all equal count, while
stats_range equals 0 — not count as the claim stated. -/
theorem C3_faces_one_collapse (d : Dice) (g : Nat → Int) (i : Nat)
    (hf : d.faces = 1) (hc : 1 ≤ d.count) :
    (roll_one d g i).1 = 1 ∧
    (roll_iter d g i).1.sum = d.count ∧
    (roll_all d g i).1 = d.count ∧
    (roll d g i).1 = d.count ∧
    stats_min { d with isStatsStale := true } = .ok d.count ∧
    stats_max { d with isStatsStale := true } = .ok d.count ∧
    stats_midpoint { d with isStatsStale := true } = .ok d.count ∧
    stats_mean { d with isStatsStale := true } = .ok (d.count : Rat) ∧
    stats_median { d with isStatsStale := true } = .ok (d.count : Rat) ∧
    stats_mode { d with isStatsStale := true } = .ok d.count ∧
    stats_range { d with isStatsStale := true } = .ok 0 := by
  have hgt : ¬ d.faces > 1 := by omega
  have hone : (roll_one d g i).1 = 1 := by simp [roll_one, hgt]
  have hiter : (roll_iter d g i).1.sum = d.count := by
    simp [roll_iter, hgt, List.sum_replicate, nsmul_eq_mul]
    omega
  have hall : (roll_all d g i).1 = d.count := by simp [roll_all, hgt]
  have hroll : (roll d g i).1 = d.count := by
    by_cases h1 : d.count = 1
    · simp [roll, h1, roll_one, hgt]
    · simp [roll, h1, hall]
  have hus : update_stats d.faces d.count =
      { smin := d.count, smax := d.count, srange := 0, smid := d.count,
        smean := (d.count : Rat), smedian := (d.count : Rat), smode := d.count } := by
    rw [hf]; exact update_stats_one d.count hc
  refine ⟨hone, hiter, hall, hroll, ?_, ?_, ?_, ?_, ?_, ?_, ?_⟩ <;>
    simp [stats_min, stats_max, stats_midpoint, stats_mean, stats_median, stats_mode,
      stats_range, check_stats, hus]

/-- C3 witness: the amended statement instantiated at Dice(faces=1,
count=2) with the all-zero randomness oracle. -/
theorem C3_faces_one_collapse_witness :
    (⟨2, 1, false, none⟩ : Dice).faces = 1 ∧ 1 ≤ (⟨2, 1, false, none⟩ : Dice).count ∧
    ((roll_one ⟨2, 1, false, none⟩ (fun _ => 0) 0).1 = 1 ∧
     (roll_iter ⟨2, 1, false, none⟩ (fun _ => 0) 0).1.sum = 2 ∧
     (roll_all ⟨2, 1, false, none⟩ (fun _ => 0) 0).1 = 2 ∧
     (roll ⟨2, 1, false, none⟩ (fun _ => 0) 0).1 = 2 ∧
     stats_min ⟨2, 1, true, none⟩ = .ok 2 ∧
     stats_max ⟨2, 1, true, none⟩ = .ok 2 ∧
     stats_midpoint ⟨2, 1, true, none⟩ = .ok 2 ∧
     stats_mean ⟨2, 1, true, none⟩ = .ok ((2 : Int) : Rat) ∧
     stats_median ⟨2, 1, true, none⟩ = .ok ((2 : Int) : Rat) ∧
     stats_mode ⟨2, 1, true, none⟩ = .ok 2 ∧
     stats_range ⟨2, 1, true, none⟩ = .ok 0) :=
  ⟨rfl, by norm_num,
   C3_faces_one_collapse ⟨2, 1, false, none⟩ (fun _ => 0) 0 rfl (by norm_num)⟩

/-- C4 counterexample: the claim says roll_exploding_iter signals the
pool-size ValueError immediately at the point of invocation.  It is a
Python generator function: invoking it on a Dice with count = 2 merely
returns the un-started generator object (first conjunct, no signal), and
the ValueError is raised only when the iterator is first advanced (second
conjunct). -/
theorem C4_iter_invocation_defers_error :
    roll_exploding_iter ⟨2, 6, false, none⟩ 3 = EGS.start ⟨2, 6, false, none⟩ 3 ∧
    egsStep (EGS.start ⟨2, 6, false, none⟩ 3) (fun _ => 1) 0 = .raised .valueError :=
  ⟨rfl, rfl⟩

/-- C4 amended: for every Dice with count != 1 and any max_explosions,
roll_exploding_list raises ValueError immediately at the call, while
roll_exploding_iter raises the same ValueError at the first advance of
the returned generator (generator bodies run on first next(), not at
invocation). -/
theorem C4_pool_size_violation (die : Dice) (maxE : Int) (g : Nat → Int) (i fuel : Nat)
    (h : die.count ≠ 1) :
    roll_exploding_list die maxE g i fuel = .error .valueError ∧
    egsStep (roll_exploding_iter die maxE) g i = .raised .valueError := by
  constructor
  · simp [roll_exploding_list, h]
  · simp [roll_exploding_iter, egsStep, h]

/-- C4 witness: the amended statement at a pool of two d6 with unlimited
explosions. -/
theorem C4_pool_size_violation_witness :
    (⟨2, 6, false, none⟩ : Dice).count ≠ 1 ∧
    (roll_exploding_list ⟨2, 6, false, none⟩ (-1) (fun _ => 1) 0 5 = .error .valueError ∧
     egsStep (roll_exploding_iter ⟨2, 6, false, none⟩ (-1)) (fun _ => 1) 0 = .raised .valueError) :=
  ⟨by decide, C4_pool_size_violation ⟨2, 6, false, none⟩ (-1) (fun _ => 1) 0 5 (by decide)⟩

/-- C5: the claim describes the list returned by roll_exploding_list for
a single d6 with max_explosions = 3.  The code never returns a list for
any single die: after the count check it evaluates die.sides, and class
Dice defines no attribute named sides (its field is faces), so the call
raises AttributeError for every randomness oracle, cursor and loop
bound.  The explosion loop described by the claim is dead code. -/
theorem C5_exploding_list_attribute_error (g : Nat → Int) (i fuel : Nat) :
    roll_exploding_list ⟨1, 6, false, none⟩ 3 g i fuel = .error .attributeError := rfl

/-- C6: roll_percentile adds a units draw from 0..9 and a tens draw from
{0, 10, ..., 90}, remaps an exact sum of 0 to 100 (in particular, two
zero draws give 100, not 0), and every result lies in [1, 100]. -/
theorem C6_roll_percentile_contract (units tens : Int)
    (hu0 : 0 ≤ units) (hu9 : units ≤ 9) (ht0 : 0 ≤ tens) (ht90 : tens ≤ 90)
    (ht10 : tens % 10 = 0) :
    roll_percentile units tens = (if units + tens = 0 then 100 else units + tens) ∧
    (units = 0 → tens = 0 → roll_percentile units tens = 100) ∧
    1 ≤ roll_percentile units tens ∧ roll_percentile units tens ≤ 100 := by
  have h : roll_percentile units tens = (if units + tens = 0 then 100 else units + tens) := rfl
  refine ⟨h, fun hu ht => ?_, ?_, ?_⟩ <;> rw [h]
  · split <;> omega
  · split <;> omega
  · split <;> omega

/-- C6 witness: the contract instantiated at the mocked double-zero draw
of the spec scenario. -/
theorem C6_roll_percentile_contract_witness :
    (0 : Int) ≤ 0 ∧ (0 : Int) ≤ 9 ∧ (0 : Int) ≤ 0 ∧ (0 : Int) ≤ 90 ∧ (0 : Int) % 10 = 0 ∧
    (roll_percentile 0 0 = (if (0 : Int) + 0 = 0 then 100 else 0 + 0) ∧
     ((0 : Int) = 0 → (0 : Int) = 0 → roll_percentile 0 0 = 100) ∧
     1 ≤ roll_percentile 0 0 ∧ roll_percentile 0 0 ≤ 100) :=
  ⟨by norm_num, by norm_num, by norm_num, by norm_num, by norm_num,
   C6_roll_percentile_contract 0 0 (by norm_num) (by norm_num) (by norm_num) (by norm_num)
     (by norm_num)⟩

/-- C7 counterexample: the claim says the equality operator, like the
arithmetic operators, propagates an unsupported-operation signal on an
operand that is neither numeric nor a Dice.  It does not: Dice.__eq__
evaluates roll == NotImplemented, which is an ordinary False in Python,
so the comparison returns an ordinary result instead of signalling. -/
theorem C7_eq_unsupported_returns_false :
    dice_eq ⟨1, 1, false, none⟩ .other (fun _ => 1) 0 = .ok false := rfl

/-- C7 amended: for an operand that is neither numeric nor a Dice, the
arithmetic operators +, -, *, /, // and the order comparisons <, <=, >,
>= all raise TypeError (the int result of the fresh roll combined with
NotImplemented), but the equality operator == returns an ordinary False
rather than signalling. -/
theorem C7_unsupported_operand_signals (d : Dice) (g : Nat → Int) (i : Nat) :
    dice_add d .other g i = .error .typeError ∧
    dice_sub d .other g i = .error .typeError ∧
    dice_mul d .other g i = .error .typeError ∧
    dice_truediv d .other g i = .error .typeError ∧
    dice_floordiv d .other g i = .error .typeError ∧
    dice_lt d .other g i = .error .typeError ∧
    dice_le d .other g i = .error .typeError ∧
    dice_gt d .other g i = .error .typeError ∧
    dice_ge d .other g i = .error .typeError ∧
    dice_eq d .other g i = .ok false :=
  ⟨rfl, rfl, rfl, rfl, rfl, rfl, rfl, rfl, rfl, rfl⟩

/-- C8: both setters reject a non-integer argument with TypeError and a
value below 1 with ValueError.  In this state-passing embedding an error
result carries no successor state, so the stored count and faces of the
caller's Dice are exactly those it had before the call: the checks
precede every assignment in the source, hence no partial mutation. -/
theorem C8_setter_validation (d : Dice) (n : Int) (hn : n < 1) :
    set_count d .nonInt = .error .typeError ∧
    set_faces d .nonInt = .error .typeError ∧
    set_count d (.int n) = .error .valueError ∧
    set_faces d (.int n) = .error .valueError := by
  refine ⟨rfl, rfl, ?_, ?_⟩ <;> simp [set_count, set_faces, hn]

/-- C8 witness: the setter contract at a 6-faces, 3-count Dice and the
out-of-range value 0. -/
theorem C8_setter_validation_witness :
    (0 : Int) < 1 ∧
    (set_count ⟨3, 6, false, none⟩ .nonInt = .error .typeError ∧
     set_faces ⟨3, 6, false, none⟩ .nonInt = .error .typeError ∧
     set_count ⟨3, 6, false, none⟩ (.int 0) = .error .valueError ∧
     set_faces ⟨3, 6, false, none⟩ (.int 0) = .error .valueError) :=
  ⟨by norm_num, C8_setter_validation ⟨3, 6, false, none⟩ 0 (by norm_num)⟩

/-- C9: matches compares the count and faces fields directly: it is
reflexive, symmetric, tells a pool of 2 six-sided dice apart from a pool
of 6 two-sided dice, and raises TypeError when the operand is not a Dice
(whether a number or any other value). -/
theorem C9_matches_structural :
    (∀ d : Dice, dice_matches d (.dice d) = .ok true) ∧
    (∀ a b : Dice,
      dice_matches a (.dice b) = .ok true ↔ dice_matches b (.dice a) = .ok true) ∧
    dice_matches ⟨2, 6, false, none⟩ (.dice ⟨6, 2, false, none⟩) = .ok false ∧
    (∀ d : Dice, dice_matches d .other = .error .typeError) ∧
    (∀ d : Dice, ∀ v : Int, dice_matches d (.num v) = .error .typeError) := by
  refine ⟨fun d => by simp [dice_matches], fun a b => ?_, rfl, fun d => rfl,
    fun d v => rfl⟩
  simp only [dice_matches, Except.ok.injEq, Bool.and_eq_true, beq_iff_eq]
  omega

/-- C10: on every successfully constructed Dice on which no setter has
been invoked afterwards, reading any of the seven stats_* properties
raises AttributeError: the constructor clears the stale flag after the
setters set it, so check_stats never triggers the lazy computation and
the cached attributes are still absent. -/
theorem C10_fresh_dice_stats_attribute_error (f c : Int) (d : Dice)
    (h : mk_dice (.int f) (.int c) = .ok d) :
    stats_min d = .error .attributeError ∧
    stats_max d = .error .attributeError ∧
    stats_range d = .error .attributeError ∧
    stats_midpoint d = .error .attributeError ∧
    stats_mean d = .error .attributeError ∧
    stats_median d = .error .attributeError ∧
    stats_mode d = .error .attributeError := by
  have hmk : mk_dice (.int f) (.int c) =
      if c < 1 then .error .valueError
      else if f < 1 then .error .valueError
      else .ok ⟨c, f, false, none⟩ := by
    simp only [mk_dice, set_count, set_faces]
    split_ifs <;> rfl
  rw [hmk] at h
  by_cases hc : c < 1
  · rw [if_pos hc] at h; exact absurd h (by simp)
  · rw [if_neg hc] at h
    by_cases hf : f < 1
    · rw [if_pos hf] at h; exact absurd h (by simp)
    · rw [if_neg hf] at h
      simp only [Except.ok.injEq] at h
      subst h
      exact ⟨rfl, rfl, rfl, rfl, rfl, rfl, rfl⟩

/-- C10 witness: the fresh-read behaviour at Dice(faces=6, count=2). -/
theorem C10_fresh_dice_stats_attribute_error_witness :
    mk_dice (.int 6) (.int 2) = .ok ⟨2, 6, false, none⟩ ∧
    (stats_min ⟨2, 6, false, none⟩ = .error .attributeError ∧
     stats_max ⟨2, 6, false, none⟩ = .error .attributeError ∧
     stats_range ⟨2, 6, false, none⟩ = .error .attributeError ∧
     stats_midpoint ⟨2, 6, false, none⟩ = .error .attributeError ∧
     stats_mean ⟨2, 6, false, none⟩ = .error .attributeError ∧
     stats_median ⟨2, 6, false, none⟩ = .error .attributeError ∧
     stats_mode ⟨2, 6, false, none⟩ = .error .attributeError) :=
  ⟨rfl, C10_fresh_dice_stats_attribute_error 6 2 ⟨2, 6, false, none⟩ rfl⟩
